import Mathlib

/-!
Shallow embedding of `charts/pod-restart-tracker/docker/restart_tracker.py`.

Timestamps (`datetime.now()`) are modelled as exact rationals counting
seconds; Python float arithmetic on these small quantities is modelled by
exact rational arithmetic.  The two in-memory tables `restart_history`
(a `defaultdict(list)`) and `last_log_collected` (a plain dict) are
modelled as association lists keyed by the pod key string.
-/

namespace RestartTracker

/-- `RESTART_THRESHOLD = int(os.getenv('RESTART_THRESHOLD', '5'))` — default value. -/
def RESTART_THRESHOLD : ℕ := 5

/-- `TIME_WINDOW_MINUTES = int(os.getenv('TIME_WINDOW_MINUTES', '60'))` — default value. -/
def TIME_WINDOW_MINUTES : ℚ := 60

/-- One entry appended to `restart_history[pod_key]`:
`{'timestamp': now, 'restart_count': restart_count}`.  The timestamp is in seconds. -/
structure RestartObservation where
  timestamp : ℚ
  restart_count : ℕ
deriving DecidableEq, Repr

instance : Inhabited RestartObservation := ⟨⟨0, 0⟩⟩

abbrev History := List RestartObservation

/-- The `restart_history` table: pod key → list of observations. -/
abbrev Store := List (String × History)

/-- Dict update `d[k] = v` on an association list (replace the binding if present,
otherwise append a fresh one). -/
def setEntry {β : Type} : List (String × β) → String → β → List (String × β)
  | [], k, v => [(k, v)]
  | (k₀, v₀) :: rest, k, v =>
      if k₀ = k then (k, v) :: rest else (k₀, v₀) :: setEntry rest k v

/-- `restart_history[pod_key]` on a `defaultdict(list)`: the stored list, or `[]`. -/
def getHistory (s : Store) (k : String) : History :=
  (List.lookup k s).getD []

/-- The `time_diff` of `analyze_restart_pattern`:
`(history[-1]['timestamp'] - history[0]['timestamp']).total_seconds() / 60`. -/
def elapsedMinutes (h : History) : ℚ :=
  ((h.getLastD default).timestamp - (h.headD default).timestamp) / 60

/-- The rate computation at the end of `analyze_restart_pattern`:
`if len(h) > 1 and time_diff > 0 then len(h) / time_diff else 0`. -/
def computeRate (h : History) : ℚ :=
  if 1 < h.length then
    if 0 < elapsedMinutes h then (h.length : ℚ) / elapsedMinutes h
    else 0
  else 0

/-- The list stored back into `restart_history[pod_key]` by `analyze_restart_pattern`:
append the new observation, then keep only entries with
`r['timestamp'] > now - timedelta(minutes=TIME_WINDOW_MINUTES)`. -/
def prunedHistory (store : Store) (pod_key : String) (restart_count : ℕ) (now : ℚ) :
    History :=
  (getHistory store pod_key ++ [(⟨now, restart_count⟩ : RestartObservation)]).filter
    (fun r => decide (now - TIME_WINDOW_MINUTES * 60 < r.timestamp))

/-- `analyze_restart_pattern(pod_key, restart_count)`: records the observation,
prunes the window, stores the pruned list back and returns the restart rate. -/
def analyze_restart_pattern (store : Store) (pod_key : String) (restart_count : ℕ)
    (now : ℚ) : ℚ × Store :=
  (computeRate (prunedHistory store pod_key restart_count now),
   setEntry store pod_key (prunedHistory store pod_key restart_count now))

/-- Severity selection in `process_pod_event`:
`priority = "default"; if restart_count > 10: "high"; if restart_count > 20: "max"`. -/
def classifySeverity (restart_count : ℕ) : String :=
  let p := "default"
  let p := if restart_count > 10 then "high" else p
  if restart_count > 20 then "max" else p

/-- Total order on the three priorities, used to state monotonicity. -/
def severityRank (p : String) : ℕ :=
  if p = "max" then 2 else if p = "high" then 1 else 0

/-- `title.encode('ascii', 'ignore').decode('ascii')`: drop every character
whose code point is not 7-bit ASCII. -/
def cleanAscii (s : String) : String :=
  ⟨s.data.filter (fun c => decide (c.toNat < 128))⟩

/-- The HTTP request assembled by `send_ntfy_notification`: `Title` and `Tags`
headers (ASCII-normalised), `Priority` header, and the UTF-8 body. -/
structure NtfyRequest where
  title : String
  priority : String
  tags : Option String
  body : String
deriving DecidableEq, Repr

/-- Header/body preparation of `send_ntfy_notification` before `requests.post`. -/
def buildNtfyRequest (title message priority : String) (tags : Option (List String)) :
    NtfyRequest :=
  { title := cleanAscii title
    priority := priority
    tags := tags.map (fun ts => String.intercalate "," (ts.map cleanAscii))
    body := message }

/-- Outcome of the `requests.post` transport: an HTTP response, or a raised
exception (caught by the surrounding `try`/`except`). -/
inductive TransportResult where
  | response (status : ℕ) (text : String)
  | exception (msg : String)
deriving DecidableEq, Repr

/-- `send_ntfy_notification(title, message, priority, tags)` with the transport
passed as a parameter: builds the request, posts it, returns `True` iff the
status code is 200; any exception is caught and yields `False`. -/
def send_ntfy_notification (title message priority : String)
    (tags : Option (List String)) (transport : NtfyRequest → TransportResult) : Bool :=
  match transport (buildNtfyRequest title message priority tags) with
  | .response status _ => status == 200
  | .exception _ => false

/-- The log-fetch guard in `process_pod_event`:
`pod_key not in last_log_collected or (now - last_log_collected[pod_key]).total_seconds() > 300`. -/
def shouldFetchLogs (last_log_collected : List (String × ℚ)) (pod_key : String)
    (now : ℚ) : Bool :=
  match List.lookup pod_key last_log_collected with
  | none => true
  | some t => decide (now - t > 300)

/-- The mutable module state: `restart_history` and `last_log_collected`. -/
structure AppState where
  restart_history : Store
  last_log_collected : List (String × ℚ)
deriving Repr

/-- One element of `status.containerStatuses`. -/
structure ContainerStatus where
  name : String
  restartCount : ℕ
deriving DecidableEq, Repr

/-- The fields of the pod event read by `process_pod_event`. -/
structure PodEvent where
  ns : String
  name : String
  containerStatuses : List ContainerStatus
deriving Repr

/-- `pod_key = f"{namespace}/{name}/{container_name}"`. -/
def podKey (ns pod_name container_name : String) : String :=
  ns ++ "/" ++ pod_name ++ "/" ++ container_name

/-- A notification handed to `send_ntfy_notification` by `process_pod_event`
(the body is the formatted report string, not inspected by any claim and kept
abstract here). -/
structure SentAlert where
  title : String
  priority : String
  tags : List String
deriving DecidableEq, Repr

/-- Observable effects of processing one container status. -/
structure ContainerEffects where
  fetched_logs : List String
  alerts : List SentAlert
deriving DecidableEq, Repr

/-- The body of the `for container in container_statuses` loop of
`process_pod_event`: when the restart count reaches `RESTART_THRESHOLD`, record
the observation, classify severity, fetch logs at most once per 300 s per key
(updating `last_log_collected` only when the fetched text is non-empty), and
send the alert.  `logsFor` models `get_pod_logs`. -/
def process_container (cluster_name ns pod_name : String) (now : ℚ)
    (logsFor : String → String) (st : AppState) (c : ContainerStatus) :
    AppState × ContainerEffects :=
  let pod_key := podKey ns pod_name c.name
  if RESTART_THRESHOLD ≤ c.restartCount then
    let analyzed := analyze_restart_pattern st.restart_history pod_key c.restartCount now
    let priority := classifySeverity c.restartCount
    let doFetch := shouldFetchLogs st.last_log_collected pod_key now
    let last_log :=
      if doFetch then
        if logsFor pod_key ≠ "" then setEntry st.last_log_collected pod_key now
        else st.last_log_collected
      else st.last_log_collected
    ({ restart_history := analyzed.2, last_log_collected := last_log },
     { fetched_logs := if doFetch then [pod_key] else []
       alerts := [{ title := "ALERT: Pod Restarts - " ++ cluster_name
                    priority := priority
                    tags := ["warning", "rotating_light"] }] })
  else (st, { fetched_logs := [], alerts := [] })

/-- `process_pod_event(event_data)`: iterate the container statuses; the typed
model cannot raise, so the success flag is always `True`. -/
def process_pod_event (cluster_name : String) (now : ℚ) (logsFor : String → String)
    (st : AppState) (ev : PodEvent) : AppState × Bool :=
  (ev.containerStatuses.foldl
    (fun acc c => (process_container cluster_name ev.ns ev.name now logsFor acc c).1) st,
   true)

/-- The `/pods` handler `handle_pod_event`: `from_http` parsing is modelled by
the `Option PodEvent` argument; a parse failure is the `except` path returning
HTTP 500 with the state untouched. -/
def handle_pod_event (cluster_name : String) (now : ℚ) (logsFor : String → String)
    (st : AppState) (parsed : Option PodEvent) : ℕ × AppState :=
  match parsed with
  | none => (500, st)
  | some ev =>
      let r := process_pod_event cluster_name now logsFor st ev
      if r.2 then (200, r.1) else (500, r.1)

/-- `tracked_pods` reported by `/health`: `len(restart_history)`. -/
def tracked_pods (store : Store) : ℕ := store.length

/-- The `/stats` entry for one pod key: skipped when the history is empty,
otherwise `(total_events, last_restart_count, last_seen)`. -/
def statsEntry (store : Store) (pod_key : String) : Option (ℕ × ℕ × ℚ) :=
  match List.lookup pod_key store with
  | none => none
  | some [] => none
  | some h => some (h.length, (h.getLastD default).restart_count,
                    (h.getLastD default).timestamp)

/-- Folding `analyze_restart_pattern` over a list of `(now, restart_count)`
record calls for one key. -/
def recordAll (store : Store) (key : String) (calls : List (ℚ × ℕ)) : Store :=
  calls.foldl (fun s x => (analyze_restart_pattern s key x.2 x.1).2) store

/-- Ascending order on observations, by timestamp. -/
def obsLE (a b : RestartObservation) : Prop := a.timestamp ≤ b.timestamp

/-- The rate returned after ingesting the spec scenario: restart_count 6 at
t = 0 s, 7 at t = 300 s, 8 at t = 600 s, for one key. -/
def c1Rate : ℚ :=
  (analyze_restart_pattern
    (analyze_restart_pattern
      (analyze_restart_pattern [] "prod/api-7f/app" 6 0).2
      "prod/api-7f/app" 7 300).2
    "prod/api-7f/app" 8 600).1

theorem lookup_setEntry_self {β : Type} (l : List (String × β)) (k : String) (v : β) :
    List.lookup k (setEntry l k v) = some v := by
  induction l with
  | nil => simp [setEntry, List.lookup]
  | cons hd tl ih =>
    obtain ⟨k₀, v₀⟩ := hd
    by_cases h : k₀ = k
    · subst h; simp [setEntry, List.lookup]
    · have hbeq : (k == k₀) = false := by simp [Ne.symm h]
      simp only [setEntry, if_neg h, List.lookup, hbeq]
      exact ih

theorem lookup_setEntry_ne {β : Type} (l : List (String × β)) (k k₁ : String) (v : β)
    (hne : k₁ ≠ k) : List.lookup k₁ (setEntry l k v) = List.lookup k₁ l := by
  have hbeq : (k₁ == k) = false := by simp [hne]
  induction l with
  | nil => simp [setEntry, List.lookup, hbeq]
  | cons hd tl ih =>
    obtain ⟨k₀, v₀⟩ := hd
    by_cases h : k₀ = k
    · subst h
      simp [setEntry, List.lookup, hbeq]
    · simp only [setEntry, if_neg h, List.lookup]
      by_cases h₁ : k₁ = k₀
      · subst h₁; simp
      · have hbeq₁ : (k₁ == k₀) = false := by simp [h₁]
        simp only [hbeq₁]
        exact ih

theorem length_setEntry_ge {β : Type} (l : List (String × β)) (k : String) (v : β) :
    l.length ≤ (setEntry l k v).length := by
  induction l with
  | nil => simp [setEntry]
  | cons hd tl ih =>
    obtain ⟨k₀, v₀⟩ := hd
    by_cases h : k₀ = k
    · simp [setEntry, h]
    · simp only [setEntry, if_neg h, List.length_cons]
      omega

theorem getHistory_setEntry_self (s : Store) (k : String) (h : History) :
    getHistory (setEntry s k h) k = h := by
  simp [getHistory, lookup_setEntry_self]

theorem getHistory_setEntry_ne (s : Store) (k k₁ : String) (h : History) (hne : k₁ ≠ k) :
    getHistory (setEntry s k h) k₁ = getHistory s k₁ := by
  simp [getHistory, lookup_setEntry_ne _ _ _ _ hne]

/-- C3: the severity classification is monotone in the restart count with exact
strict-comparison boundaries: counts up to 10 map to `"default"`, counts in
`11..20` to `"high"`, counts above 20 to `"max"`; in particular 6 and 10 give
`"default"`, 11 and 20 give `"high"`, 21 gives `"max"`. -/
theorem C3_severity_boundaries :
    (∀ n : ℕ, n ≤ 10 → classifySeverity n = "default") ∧
    (∀ n : ℕ, 10 < n → n ≤ 20 → classifySeverity n = "high") ∧
    (∀ n : ℕ, 20 < n → classifySeverity n = "max") ∧
    classifySeverity 6 = "default" ∧ classifySeverity 10 = "default" ∧
    classifySeverity 11 = "high" ∧ classifySeverity 20 = "high" ∧
    classifySeverity 21 = "max" ∧
    (∀ a b : ℕ, a ≤ b →
      severityRank (classifySeverity a) ≤ severityRank (classifySeverity b)) := by
  refine ⟨?_, ?_, ?_, by decide, by decide, by decide, by decide, by decide, ?_⟩
  · intro n h
    have h1 : ¬ n > 10 := by omega
    have h2 : ¬ n > 20 := by omega
    simp [classifySeverity, h1, h2]
  · intro n h₁ h₂
    have h2 : ¬ n > 20 := by omega
    simp [classifySeverity, h₁, h2]
  · intro n h
    simp [classifySeverity, h]
  · intro a b hab
    have hrank : ∀ n : ℕ, severityRank (classifySeverity n) =
        if 20 < n then 2 else if 10 < n then 1 else 0 := by
      intro n
      unfold classifySeverity severityRank
      by_cases h1 : 20 < n <;> by_cases h2 : 10 < n <;> simp [h1, h2]
    rw [hrank a, hrank b]
    split_ifs <;> omega

theorem C3_severity_boundaries_witness :
    classifySeverity 10 = "default" ∧
    severityRank (classifySeverity 6) ≤ severityRank (classifySeverity 21) :=
  ⟨C3_severity_boundaries.2.2.2.2.1,
   C3_severity_boundaries.2.2.2.2.2.2.2.2 6 21 (by decide)⟩

/-- C4: the restart rate is 0 whenever at most one observation is retained
after pruning, and also whenever the first and last retained timestamps
coincide, so the rate computation never divides by zero. -/
theorem C4_zero_rate_guard (store : Store) (key : String) (count : ℕ) (now : ℚ)
    (h : (prunedHistory store key count now).length ≤ 1 ∨
         elapsedMinutes (prunedHistory store key count now) = 0) :
    (analyze_restart_pattern store key count now).1 = 0 := by
  unfold analyze_restart_pattern computeRate
  rcases h with h | h
  · rw [if_neg (by omega)]
  · rw [h]
    simp

theorem c4_fact_single : (prunedHistory [] "k" 6 0).length ≤ 1 := by
  norm_num [prunedHistory, getHistory, TIME_WINDOW_MINUTES, List.lookup, List.filter]

theorem C4_zero_rate_guard_witness : (analyze_restart_pattern [] "k" 6 0).1 = 0 :=
  C4_zero_rate_guard [] "k" 6 0 (Or.inl c4_fact_single)

/-- C6: when the inbound `/pods` body cannot be parsed as an event, the handler
answers HTTP 500 and leaves `restart_history` and `last_log_collected` exactly
as they were. -/
theorem C6_parse_failure_no_mutation (cluster_name : String) (now : ℚ)
    (logsFor : String → String) (st : AppState) :
    handle_pod_event cluster_name now logsFor st none = (500, st) := rfl

/-- C8: `send_ntfy_notification` reports a non-2xx transport status or a
transport exception as the return value `false`; the catch-all handler means
the operation is total, never propagating an exception. -/
theorem C8_notifier_failure (title message priority : String)
    (tags : Option (List String)) (transport : NtfyRequest → TransportResult) :
    (∀ status text,
        transport (buildNtfyRequest title message priority tags) =
          .response status text →
        status < 200 ∨ 300 ≤ status →
        send_ntfy_notification title message priority tags transport = false) ∧
    (∀ msg,
        transport (buildNtfyRequest title message priority tags) = .exception msg →
        send_ntfy_notification title message priority tags transport = false) := by
  constructor
  · intro status text heq hs
    unfold send_ntfy_notification
    rw [heq]
    simp only [beq_eq_false_iff_ne, ne_eq]
    omega
  · intro msg heq
    unfold send_ntfy_notification
    rw [heq]

theorem C8_notifier_failure_witness :
    send_ntfy_notification "t" "m" "default" none
      (fun _ => .response 500 "server error") = false ∧
    send_ntfy_notification "t" "m" "default" none
      (fun _ => .exception "connection refused") = false :=
  ⟨(C8_notifier_failure "t" "m" "default" none _).1 500 "server error" rfl
      (Or.inr (by decide)),
   (C8_notifier_failure "t" "m" "default" none _).2 "connection refused" rfl⟩

/-- C9: a container status whose restart count is below `RESTART_THRESHOLD`
produces no observation and leaves the whole state (both tables) untouched;
at or above the threshold the new observation is recorded under the
container's pod key. -/
theorem C9_threshold_gate (cluster_name ns pod_name : String) (now : ℚ)
    (logsFor : String → String) (st : AppState) (c : ContainerStatus) :
    (c.restartCount < RESTART_THRESHOLD →
        process_container cluster_name ns pod_name now logsFor st c =
          (st, { fetched_logs := [], alerts := [] })) ∧
    (RESTART_THRESHOLD ≤ c.restartCount →
        (⟨now, c.restartCount⟩ : RestartObservation) ∈
          getHistory
            (process_container cluster_name ns pod_name now logsFor st c).1.restart_history
            (podKey ns pod_name c.name)) := by
  constructor
  · intro h
    unfold process_container
    rw [if_neg (by omega)]
  · intro h
    unfold process_container
    rw [if_pos h]
    simp only [analyze_restart_pattern, getHistory_setEntry_self, prunedHistory,
      List.mem_filter, List.mem_append]
    refine ⟨Or.inr (by simp), ?_⟩
    simp only [decide_eq_true_eq]
    have : (0 : ℚ) < TIME_WINDOW_MINUTES * 60 := by norm_num [TIME_WINDOW_MINUTES]
    linarith

theorem C9_threshold_gate_witness :
    process_container "cl" "a" "b" 0 (fun _ => "") ⟨[], []⟩ ⟨"c", 4⟩ =
      (⟨[], []⟩, { fetched_logs := [], alerts := [] }) ∧
    (⟨0, 5⟩ : RestartObservation) ∈
      getHistory
        (process_container "cl" "a" "b" 0 (fun _ => "") ⟨[], []⟩ ⟨"c", 5⟩).1.restart_history
        (podKey "a" "b" "c") :=
  ⟨(C9_threshold_gate "cl" "a" "b" 0 (fun _ => "") ⟨[], []⟩ ⟨"c", 4⟩).1 (by decide),
   (C9_threshold_gate "cl" "a" "b" 0 (fun _ => "") ⟨[], []⟩ ⟨"c", 5⟩).2 (by decide)⟩

/-- C10: recording an observation for key `k` changes no other key's stored
binding: lookups, `getHistory` and the `/stats` entry of every other key are
unchanged, and the `/health` `tracked_pods` count never shrinks, so stale keys
keep their (possibly out-of-window) observations and stay counted. -/
theorem C10_record_frame (store : Store) (k : String) (count : ℕ) (now : ℚ)
    (k₁ : String) (hne : k₁ ≠ k) :
    List.lookup k₁ (analyze_restart_pattern store k count now).2 =
      List.lookup k₁ store ∧
    getHistory (analyze_restart_pattern store k count now).2 k₁ = getHistory store k₁ ∧
    statsEntry (analyze_restart_pattern store k count now).2 k₁ = statsEntry store k₁ ∧
    tracked_pods store ≤ tracked_pods (analyze_restart_pattern store k count now).2 := by
  have hl := lookup_setEntry_ne store k k₁ (prunedHistory store k count now) hne
  refine ⟨hl, ?_, ?_, ?_⟩
  · simp only [analyze_restart_pattern, getHistory]
    rw [hl]
  · simp only [analyze_restart_pattern, statsEntry]
    rw [hl]
  · exact length_setEntry_ge store k (prunedHistory store k count now)

theorem C10_record_frame_witness :
    List.lookup "other" (analyze_restart_pattern [("other", [⟨0, 6⟩])] "k" 7 300).2 =
      List.lookup "other" [("other", [(⟨0, 6⟩ : RestartObservation)])] :=
  (C10_record_frame [("other", [⟨0, 6⟩])] "k" 7 300 "other" (by decide)).1

/-- C1 as stated is false: the code computes `len(history) / time_diff`, not
`(len - 1) / time_diff`.  On the spec's own scenario (counts 6, 7, 8 at
t = 0 s, 300 s, 600 s, window 60 min) the returned rate is 3/10 = 0.3 per
minute, not 2/10 = 0.2. -/
theorem C1_counterexample : c1Rate = 3 / 10 ∧ c1Rate ≠ 1 / 5 := by
  have h : c1Rate = 3 / 10 := by
    norm_num [c1Rate, analyze_restart_pattern, computeRate, prunedHistory, elapsedMinutes,
      getHistory, TIME_WINDOW_MINUTES, List.lookup, setEntry, List.filter]
  refine ⟨h, ?_⟩
  rw [h]
  norm_num

/-- C1 amended: whenever at least two observations are retained after pruning
and they span a positive number of minutes, the analyzer returns
`n / elapsed_minutes` where `n` is the number of retained observations (the
count itself, not `n - 1`); on the spec scenario this is 3/10 per minute. -/
theorem C1_rate_uses_full_count (store : Store) (key : String) (count : ℕ) (now : ℚ)
    (hlen : 1 < (prunedHistory store key count now).length)
    (helapsed : 0 < elapsedMinutes (prunedHistory store key count now)) :
    (analyze_restart_pattern store key count now).1 =
      ((prunedHistory store key count now).length : ℚ) /
        elapsedMinutes (prunedHistory store key count now) := by
  unfold analyze_restart_pattern computeRate
  rw [if_pos hlen, if_pos helapsed]

theorem c1_fact_len :
    1 < (prunedHistory [("prod/api-7f/app", [⟨0, 6⟩, ⟨300, 7⟩])]
          "prod/api-7f/app" 8 600).length := by
  norm_num [prunedHistory, getHistory, TIME_WINDOW_MINUTES, List.lookup, List.filter]

theorem c1_fact_elapsed :
    0 < elapsedMinutes (prunedHistory [("prod/api-7f/app", [⟨0, 6⟩, ⟨300, 7⟩])]
          "prod/api-7f/app" 8 600) := by
  norm_num [prunedHistory, elapsedMinutes, getHistory, TIME_WINDOW_MINUTES,
    List.lookup, List.filter]

theorem C1_rate_uses_full_count_witness :
    (analyze_restart_pattern [("prod/api-7f/app", [⟨0, 6⟩, ⟨300, 7⟩])]
        "prod/api-7f/app" 8 600).1 =
      ((prunedHistory [("prod/api-7f/app", [⟨0, 6⟩, ⟨300, 7⟩])]
          "prod/api-7f/app" 8 600).length : ℚ) /
        elapsedMinutes (prunedHistory [("prod/api-7f/app", [⟨0, 6⟩, ⟨300, 7⟩])]
          "prod/api-7f/app" 8 600) :=
  C1_rate_uses_full_count _ _ _ _ c1_fact_len c1_fact_elapsed

/-- C5 as stated is false in one detail: ASCII normalisation only drops
non-ASCII characters, so the title `"🔴 CRITICAL"` becomes `" CRITICAL"`
(the separator space survives), not `"CRITICAL"`. -/
theorem C5_counterexample :
    (buildNtfyRequest "🔴 CRITICAL" "body" "max" (some ["warning", "🚨"])).title =
      " CRITICAL" ∧
    (buildNtfyRequest "🔴 CRITICAL" "body" "max" (some ["warning", "🚨"])).title ≠
      "CRITICAL" := by
  constructor
  · decide
  · decide

/-- C5 amended: titles and tags are normalised by dropping every non-ASCII
character (all ASCII characters, including whitespace, survive) while the body
passes through unrestricted; the title `"🔴 CRITICAL"` becomes `" CRITICAL"`
and the tags `["warning", "🚨"]` become `["warning", ""]`, joined into the
header value `"warning,"`. -/
theorem C5_ascii_normalization (title message priority : String) (ts : List String) :
    (∀ ch ∈ (buildNtfyRequest title message priority (some ts)).title.data,
        ch.toNat < 128) ∧
    (buildNtfyRequest title message priority (some ts)).tags =
      some (String.intercalate "," (ts.map cleanAscii)) ∧
    (∀ s ∈ ts, ∀ ch ∈ (cleanAscii s).data, ch.toNat < 128) ∧
    (buildNtfyRequest title message priority (some ts)).body = message ∧
    (buildNtfyRequest "🔴 CRITICAL" "body" "max" (some ["warning", "🚨"])).title =
      " CRITICAL" ∧
    (buildNtfyRequest "🔴 CRITICAL" "body" "max" (some ["warning", "🚨"])).tags =
      some "warning," := by
  refine ⟨?_, rfl, ?_, rfl, by decide, by decide⟩
  · intro ch hch
    simp only [buildNtfyRequest, cleanAscii] at hch
    simpa using List.of_mem_filter hch
  · intro s _ ch hch
    simp only [cleanAscii] at hch
    simpa using List.of_mem_filter hch

theorem C5_ascii_normalization_witness :
    (buildNtfyRequest "🔴 CRITICAL" "body" "max" (some ["warning", "🚨"])).tags =
      some "warning," ∧
    ('C' : Char).toNat < 128 :=
  ⟨(C5_ascii_normalization "🔴 CRITICAL" "body" "max" ["warning", "🚨"]).2.2.2.2.2,
   (C5_ascii_normalization "🔴 CRITICAL" "body" "max" ["warning", "🚨"]).1 'C'
     (by decide)⟩

/-- C7: when the pod key has a recorded last-fetched timestamp `t` and the
current time is within 300 seconds of it, the log fetch is skipped: no fetch
is attempted and the `last_log_collected` mapping is unchanged. -/
theorem C7_log_fetch_rate_limited (cluster_name ns pod_name : String) (now : ℚ)
    (logsFor : String → String) (st : AppState) (c : ContainerStatus) (t : ℚ)
    (hkey : List.lookup (podKey ns pod_name c.name) st.last_log_collected = some t)
    (hwithin : now - t ≤ 300) :
    (process_container cluster_name ns pod_name now logsFor st c).2.fetched_logs = [] ∧
    (process_container cluster_name ns pod_name now logsFor st c).1.last_log_collected =
      st.last_log_collected := by
  have hf : shouldFetchLogs st.last_log_collected (podKey ns pod_name c.name) now =
      false := by
    unfold shouldFetchLogs
    rw [hkey]
    simpa using hwithin
  unfold process_container
  by_cases h : RESTART_THRESHOLD ≤ c.restartCount
  · rw [if_pos h]
    simp [hf]
  · rw [if_neg h]
    exact ⟨rfl, rfl⟩

theorem c7_fact_lookup :
    List.lookup (podKey "a" "b" "c") [("a/b/c", (0 : ℚ))] = some 0 := rfl

theorem c7_fact_within : (100 : ℚ) - 0 ≤ 300 := by norm_num

theorem C7_log_fetch_rate_limited_witness :
    (process_container "cl" "a" "b" 100 (fun _ => "log")
        ⟨[], [("a/b/c", 0)]⟩ ⟨"c", 6⟩).2.fetched_logs = [] ∧
    (process_container "cl" "a" "b" 100 (fun _ => "log")
        ⟨[], [("a/b/c", 0)]⟩ ⟨"c", 6⟩).1.last_log_collected =
      (⟨[], [("a/b/c", 0)]⟩ : AppState).last_log_collected :=
  C7_log_fetch_rate_limited "cl" "a" "b" 100 (fun _ => "log")
    ⟨[], [("a/b/c", 0)]⟩ ⟨"c", 6⟩ 0 c7_fact_lookup c7_fact_within

theorem analyze_step_inv (store : Store) (key : String) (count : ℕ) (now : ℚ)
    (hs : (getHistory store key).Sorted obsLE)
    (hb : ∀ o ∈ getHistory store key, o.timestamp < now) :
    (getHistory (analyze_restart_pattern store key count now).2 key).Sorted obsLE ∧
    (∀ o ∈ getHistory (analyze_restart_pattern store key count now).2 key,
        o.timestamp ≤ now) ∧
    (∀ o ∈ getHistory (analyze_restart_pattern store key count now).2 key,
        now - TIME_WINDOW_MINUTES * 60 < o.timestamp) := by
  have hget : getHistory (analyze_restart_pattern store key count now).2 key =
      prunedHistory store key count now := by
    simp [analyze_restart_pattern, getHistory_setEntry_self]
  rw [hget]
  unfold prunedHistory
  have happ : ((getHistory store key) ++
      [(⟨now, count⟩ : RestartObservation)]).Sorted obsLE := by
    refine List.pairwise_append.mpr ⟨hs, List.pairwise_singleton _ _, ?_⟩
    intro a ha b hbmem
    simp only [List.mem_singleton] at hbmem
    subst hbmem
    exact le_of_lt (hb a ha)
  refine ⟨List.Pairwise.filter _ happ, ?_, ?_⟩
  · intro o ho
    have hmem := List.mem_of_mem_filter ho
    rcases List.mem_append.mp hmem with h | h
    · exact le_of_lt (hb o h)
    · simp only [List.mem_singleton] at h
      subst h
      exact le_refl _
  · intro o ho
    simpa using List.of_mem_filter ho

theorem recordAll_inv (key : String) (rest : List (ℚ × ℕ)) :
    ∀ (c : ℚ × ℕ) (store : Store),
      (getHistory store key).Sorted obsLE →
      (∀ o ∈ getHistory store key, o.timestamp < c.1) →
      List.Chain' (fun a b : ℚ × ℕ => a.1 < b.1) (c :: rest) →
      (getHistory (recordAll store key (c :: rest)) key).Sorted obsLE ∧
      ∀ o ∈ getHistory (recordAll store key (c :: rest)) key,
        o.timestamp ≤ ((c :: rest).getLast (List.cons_ne_nil c rest)).1 ∧
        ((c :: rest).getLast (List.cons_ne_nil c rest)).1 - TIME_WINDOW_MINUTES * 60 <
          o.timestamp := by
  induction rest with
  | nil =>
    intro c store hs hb _
    have hstep := analyze_step_inv store key c.2 c.1 hs hb
    have hrec : recordAll store key [c] =
        (analyze_restart_pattern store key c.2 c.1).2 := rfl
    rw [hrec]
    simp only [List.getLast_singleton]
    exact ⟨hstep.1, fun o ho => ⟨hstep.2.1 o ho, hstep.2.2 o ho⟩⟩
  | cons d rest ih =>
    intro c store hs hb hchain
    have hcd : c.1 < d.1 := (List.chain'_cons.mp hchain).1
    have hchain' := (List.chain'_cons.mp hchain).2
    have hstep := analyze_step_inv store key c.2 c.1 hs hb
    have hb' : ∀ o ∈ getHistory (analyze_restart_pattern store key c.2 c.1).2 key,
        o.timestamp < d.1 := fun o ho => lt_of_le_of_lt (hstep.2.1 o ho) hcd
    have hmain := ih d (analyze_restart_pattern store key c.2 c.1).2 hstep.1 hb' hchain'
    have hrec : recordAll store key (c :: d :: rest) =
        recordAll (analyze_restart_pattern store key c.2 c.1).2 key (d :: rest) := rfl
    have hlast : ((c :: d :: rest).getLast (List.cons_ne_nil c (d :: rest))).1 =
        ((d :: rest).getLast (List.cons_ne_nil d rest)).1 := by
      rw [List.getLast_cons]
    rw [hrec, hlast]
    exact hmain

/-- C2: starting from an empty table, after any nonempty sequence of `record`
calls for one key with strictly increasing timestamps, the stored sequence is
sorted ascending by timestamp and retains no observation at or older than the
last call's time minus the `TIME_WINDOW_MINUTES` window. -/
theorem C2_window_invariant (key : String) (c : ℚ × ℕ) (rest : List (ℚ × ℕ))
    (hchain : List.Chain' (fun a b : ℚ × ℕ => a.1 < b.1) (c :: rest)) :
    (getHistory (recordAll [] key (c :: rest)) key).Sorted obsLE ∧
    ∀ o ∈ getHistory (recordAll [] key (c :: rest)) key,
      ((c :: rest).getLast (List.cons_ne_nil c rest)).1 - TIME_WINDOW_MINUTES * 60 <
        o.timestamp := by
  have h := recordAll_inv key rest c []
    (by simp [getHistory, List.lookup])
    (by simp [getHistory, List.lookup])
    hchain
  exact ⟨h.1, fun o ho => (h.2 o ho).2⟩

theorem c2_fact_chain :
    List.Chain' (fun a b : ℚ × ℕ => a.1 < b.1) [((0 : ℚ), (6 : ℕ)), (300, 7), (600, 8)] := by
  refine List.chain'_cons.mpr ⟨by norm_num, List.chain'_cons.mpr ⟨by norm_num, ?_⟩⟩
  simp

theorem C2_window_invariant_witness :
    (getHistory (recordAll [] "k" [((0 : ℚ), (6 : ℕ)), (300, 7), (600, 8)]) "k").Sorted
      obsLE :=
  (C2_window_invariant "k" ((0 : ℚ), (6 : ℕ)) [(300, 7), (600, 8)] c2_fact_chain).1

end RestartTracker
